import Mathlib

/-!
Shallow embedding of the BGazeFocus-OddTasks backend (Express + Mongoose +
JWT + in-memory OTP store), covering the profile CRUD/search/exists routes,
the e-mail OTP lifecycle and the session-token helpers.

Conventions of the embedding:
* The Mongo collection backing `UserProfile` is a `List Profile` in insertion
  order; `findOne` is `List.find?`, the unique index on `idName` turns a
  duplicate insert into a `DuplicateKey` (HTTP 409) outcome.
* The in-memory OTP maps (`otpStore`) are functions `String → Option _`.
* JavaScript string truthiness (`if (!x)`) is modelled by `jsStr`, which
  collapses a missing or empty string to `none`.
* Effects drawn inside a handler (the `Math.random()` OTP draw, the outcome
  of `transporter.sendMail`, the current `Date.now()` clock) are passed to
  the embedded handler as explicit parameters.
* The `jsonwebtoken` library is external to the repository; it is modelled
  by `signToken` / `jwtVerify` below: a signed token carries its payload,
  issued-at, expiry (`expiresIn: 7d` from the source) and the signing
  secret; verification succeeds iff the secrets agree and the clock is
  strictly before `exp` (the library rejects once `now ≥ exp`).
-/

/-- JavaScript truthiness for an optional string field: `undefined` and the
empty string are falsy. `jsStr x = some s` iff the field is present and
non-empty. -/
def jsStr : Option String → Option String
  | none => none
  | some s => if s = "" then none else some s

/-- The `UserProfile` Mongoose schema (one-file variant lines 47–66 and
`src/models/UserProfile.js`): a required unique `idName`, an optional
non-unique `email`, and optional free-text survey fields. -/
structure Profile where
  idName : String
  email : Option String := none
  age : Option String := none
  genderIdentity : Option String := none
  adhdDiagnosisConfidence : Option String := none
  adhdSymptomProfile : Option String := none
  adhdMedicationStatus : Option String := none
  autismDiagnosisConfidence : Option String := none
  facialExpressionRecognition : Option String := none
  eyeContactComfort : Option String := none
  readingComprehensionChallenges : Option String := none
  readingProficiency : Option String := none
  dailyFunctionalChallenges : Option String := none
  dyslexiaDiagnosis : Option String := none
  dyslexiaManagement : Option String := none
  visualFocusPatterns : Option String := none
  geographicRegion : Option String := none
deriving DecidableEq, Repr

/-- Outcome of `POST /userprofile`. -/
inductive CreateResp where
  | created
  | duplicateKey
deriving DecidableEq, Repr

/-- HTTP status attached to each `CreateResp` by the route
(`res.status(201)` / `res.status(409)`). -/
def createStatus : CreateResp → Nat
  | .created => 201
  | .duplicateKey => 409

/-- `POST /userprofile` (userProfile.js lines 12–23, one-file variant lines
134–145): `new UserData(req.body); save()`. The unique index on `idName`
makes the save throw error code 11000 → 409 when a stored profile already
uses the same `idName`; otherwise the document is appended. -/
def createProfile (store : List Profile) (p : Profile) : CreateResp × List Profile :=
  if store.any (fun q => q.idName = p.idName) then (.duplicateKey, store)
  else (.created, store ++ [p])

/-- Outcome of `PUT /userprofile/:idName`. -/
inductive UpdateResp where
  | badRequest
  | notFound
  | duplicateKey
  | updated (user : Profile)
deriving DecidableEq, Repr

/-- HTTP status attached to each `UpdateResp` by the route. -/
def updateStatus : UpdateResp → Nat
  | .badRequest => 400
  | .notFound => 404
  | .duplicateKey => 409
  | .updated _ => 200

/-- `findOneAndUpdate({idName}, upd, {new:true})`: replace the first profile
whose `idName` matches with the updated document. -/
def replaceFirst : List Profile → String → Profile → List Profile
  | [], _, _ => []
  | p :: ps, k, q => if p.idName = k then q :: ps else p :: replaceFirst ps k q

/-- The `upd` document built by the update route: each field is set only when
the request value is truthy. -/
def applyUpd (user : Profile) (nI nE : Option String) : Profile :=
  { user with
    idName := nI.getD user.idName
    email := match nE with | some e => some e | none => user.email }

/-- `PUT /userprofile/:idName` (userProfile.js lines 75–101, one-file variant
lines 206–228): 400 on an empty `idName` param; 404 when no profile has that
`idName`; 400 (`No update data provided`) when neither `newIdName` nor
`newEmail` is truthy; 409 (`Username already taken`) when renaming to a
truthy `newIdName` different from `idName` that another stored profile
already uses; otherwise the first matching profile is updated in place and
returned. -/
def updateProfile (store : List Profile) (idName : String)
    (newIdName newEmail : Option String) : UpdateResp × List Profile :=
  if idName = "" then (.badRequest, store)
  else
    match store.find? (fun p => p.idName = idName) with
    | none => (.notFound, store)
    | some user =>
      let nI := jsStr newIdName
      let nE := jsStr newEmail
      if nI = none ∧ nE = none then (.badRequest, store)
      else if (match nI with
               | some n => n != idName && store.any (fun p => p.idName = n)
               | none => false) then (.duplicateKey, store)
      else
        let user' := applyUpd user nI nE
        (.updated user', replaceFirst store idName user')

/-- Outcome of `GET /userprofile/exists`. -/
inductive ExistsResp where
  | badRequest
  | found
  | missing
  | withCount (status : Nat) (present : Bool) (count : Nat)
deriving DecidableEq, Repr

/-- `GET /userprofile/exists?email=&withCount=` (userProfile.js lines 45–59,
one-file variant lines 176–187): 400 without a truthy `email`; without a
truthy `withCount`, bare 204 when `UserData.exists({email})` finds a match
and bare 404 otherwise; with `withCount`, a JSON body `{exists, count}` with
status 200/404, where `count` is `countDocuments({email})` when a match
exists and 0 otherwise. A Mongo equality query on `email` matches exactly
the documents whose `email` field equals the given string. -/
def existsHandler (store : List Profile) (email withCount : Option String) : ExistsResp :=
  match jsStr email with
  | none => .badRequest
  | some e =>
    let present := store.any (fun p => p.email = some e)
    match jsStr withCount with
    | none => if present then .found else .missing
    | some _ =>
      let count := if present then store.countP (fun p => p.email = some e) else 0
      .withCount (if present then 200 else 404) present count

/-- A signed JSON Web Token, modelling the output of
`jwt.sign(payload, secret, {expiresIn})` from the external `jsonwebtoken`
library: the payload (`{email}` here), the standard `iat`/`exp` claims in
seconds, and the signing secret standing in for the signature. -/
structure Jwt where
  email : String
  iat : Nat
  exp : Nat
  secret : String
deriving DecidableEq, Repr

/-- The decoded payload handed to the `jwt.verify` callback
(`{ email, iat, exp }`). -/
structure JwtPayload where
  email : String
  iat : Nat
  exp : Nat
deriving DecidableEq, Repr

/-- `signToken(payload)` (`src/utils/auth.js` lines 202–203, one-file
variant lines 82–83): `jwt.sign(payload, JWT_SECRET, { expiresIn: '7d' })`,
so the signed expiry is 7 days (604800 seconds) after issuance. -/
def signToken (email : String) (secret : String) (nowSec : Nat) : Jwt :=
  { email := email, iat := nowSec, exp := nowSec + 7 * 24 * 60 * 60, secret := secret }

/-- `jwt.verify(token, secret)` semantics of the `jsonwebtoken` library: the
signature check succeeds iff the verifying secret equals the signing one,
and the token is expired once the clock reaches `exp` (accepted while
`now < exp`). On success the decoded payload is returned. -/
def jwtVerify (tok : Jwt) (secret : String) (nowSec : Nat) : Option JwtPayload :=
  if tok.secret = secret ∧ nowSec < tok.exp then
    some { email := tok.email, iat := tok.iat, exp := tok.exp }
  else none

/-- Result of the `authenticateToken` middleware: 401 when no token is
supplied, 403 when `jwt.verify` fails, otherwise the decoded payload is
attached as `req.user` and the request proceeds. -/
inductive AuthResult where
  | missingToken
  | invalidOrExpired
  | ok (user : JwtPayload)
deriving DecidableEq, Repr

/-- `String.prototype.split(' ')`: split on every single space, keeping
empty components (`"".split(' ')` is `[""]`). -/
def splitOnSpace : List Char → List (List Char)
  | [] => [[]]
  | c :: cs =>
    if c = ' ' then [] :: splitOnSpace cs
    else
      match splitOnSpace cs with
      | [] => [[c]]
      | w :: ws => (c :: w) :: ws

/-- `req.headers.authorization?.split(' ')[1]`: the bearer part of the
Authorization header, `none` when the header is absent or has no second
space-separated component. -/
def extractBearer : Option String → Option String
  | none => none
  | some h => ((splitOnSpace h.toList).map (fun l => (⟨l⟩ : String))).get? 1

/-- `const token = bearer || cookie` with JavaScript truthiness: a truthy
bearer component wins, otherwise a truthy cookie value is used. -/
def pickToken (authHeader cookie : Option String) : Option String :=
  match jsStr (extractBearer authHeader) with
  | some t => some t
  | none => jsStr cookie

/-- `authenticateToken` (`src/utils/auth.js` lines 211–223, one-file variant
lines 89–101). Tokens travel as strings; `decode` models the parse/signature
step of `jwt.verify` recovering the signed token from its wire form (`none`
for a malformed string). 401 when neither source yields a token, 403 when
verification fails, else `req.user := decoded`. -/
def authenticateToken (decode : String → Option Jwt) (secret : String) (nowSec : Nat)
    (authHeader cookie : Option String) : AuthResult :=
  match pickToken authHeader cookie with
  | none => .missingToken
  | some t =>
    match (decode t).bind (fun j => jwtVerify j secret nowSec) with
    | none => .invalidOrExpired
    | some p => .ok p

/-- An OTP record of the with-expiry variant: `otpStore[email] = { otp,
expires }` with `expires = Date.now() + 5*60*1000` (milliseconds). -/
structure OtpRec where
  otp : String
  expires : Nat
deriving DecidableEq, Repr

/-- The in-memory `email → {otp, expires}` map of the with-expiry auth
routes. -/
def OtpStore : Type := String → Option OtpRec

/-- The in-memory `email → otp` map of the plain (no-expiry) auth routes. -/
def OtpStoreS : Type := String → Option String

/-- `delete otpStore[email]` on a keyed map. -/
def eraseKey (store : OtpStore) (k : String) : OtpStore :=
  fun e => if e = k then none else store e

/-- `delete otpStore[email]` on the plain-code map. -/
def eraseKeyS (store : OtpStoreS) (k : String) : OtpStoreS :=
  fun e => if e = k then none else store e

/-- `Math.floor(100000 + Math.random() * 900000).toString()`: the 6-digit
OTP drawn from a random source, here derandomised by the draw `rand`. -/
def genOtp (rand : Nat) : String :=
  toString (100000 + rand % 900000)

/-- Response of `POST /send-email-otp`: 400 without a truthy email, 200 when
the mail goes out, 500 (`Failed to send OTP`) when `sendMail` throws. -/
inductive SendResp where
  | badRequest
  | sent
  | deliveryFailed
deriving DecidableEq, Repr

/-- `POST /send-email-otp`, with-expiry variant (userProfile.js lines
215–272): after the email presence check the freshly drawn `code` is stored
with `expires = now + 5*60*1000` BEFORE the mail is attempted; the catch
branch only reports 500 and does not remove the record. `mailOk` is the
outcome of `transporter.sendMail`. -/
def sendEmailOtpExp (store : OtpStore) (email : Option String) (code : String)
    (nowMs : Nat) (mailOk : Bool) : SendResp × OtpStore :=
  match jsStr email with
  | none => (.badRequest, store)
  | some e =>
    let store' : OtpStore :=
      fun x => if x = e then some { otp := code, expires := nowMs + 5 * 60 * 1000 } else store x
    ((if mailOk then .sent else .deliveryFailed), store')

/-- `POST /send-email-otp`, plain variant (userProfile.js lines 134–160,
one-file variant lines 233–283): the code is stored before the mail attempt
and the catch branch does not remove it. -/
def sendEmailOtpSimple (store : OtpStoreS) (email : Option String) (code : String)
    (mailOk : Bool) : SendResp × OtpStoreS :=
  match jsStr email with
  | none => (.badRequest, store)
  | some e =>
    let store' : OtpStoreS := fun x => if x = e then some code else store x
    ((if mailOk then .sent else .deliveryFailed), store')

/-- The JSON answer of `POST /verify-email-otp`: HTTP status, the `verified`
flag, and the session token included on success (`none` otherwise). -/
structure VerifyOut where
  status : Nat
  verified : Bool
  token : Option Jwt
deriving DecidableEq, Repr

/-- `POST /verify-email-otp`, with-expiry variant (userProfile.js lines
275–298): 400 unless both fields are truthy; `verified:false` when no record
exists or the stored code differs; when the record matches but
`Date.now() > record.expires` the record is deleted and `verified:false` is
returned; otherwise the record is deleted (single use) and a 7-day token is
signed (the JWT clock runs in seconds, hence `nowMs / 1000`). -/
def verifyEmailOtp (store : OtpStore) (email otp : Option String) (nowMs : Nat)
    (secret : String) : VerifyOut × OtpStore :=
  match jsStr email, jsStr otp with
  | some e, some o =>
    (match store e with
     | none => ({ status := 200, verified := false, token := none }, store)
     | some r =>
       if r.otp ≠ o then ({ status := 200, verified := false, token := none }, store)
       else if nowMs > r.expires then
         ({ status := 200, verified := false, token := none }, eraseKey store e)
       else
         ({ status := 200, verified := true,
            token := some (signToken e secret (nowMs / 1000)) }, eraseKey store e))
  | _, _ => ({ status := 400, verified := false, token := none }, store)

/-- `POST /verify-email-otp`, plain variant (userProfile.js lines 163–181,
one-file variant lines 287–305): 400 unless both fields are truthy;
`verified:false` when `otpStore[email] !== otp` (absence included);
otherwise the record is deleted and a 7-day token signed. -/
def verifyEmailOtpSimple (store : OtpStoreS) (email otp : Option String)
    (nowSec : Nat) (secret : String) : VerifyOut × OtpStoreS :=
  match jsStr email, jsStr otp with
  | some e, some o =>
    if store e ≠ some o then ({ status := 200, verified := false, token := none }, store)
    else ({ status := 200, verified := true,
            token := some (signToken e secret nowSec) }, eraseKeyS store e)
  | _, _ => ({ status := 400, verified := false, token := none }, store)

/-- `String.prototype.trim()`: strip whitespace from both ends. -/
def jsTrim (s : String) : String :=
  ⟨((s.toList.dropWhile Char.isWhitespace).reverse.dropWhile Char.isWhitespace).reverse⟩

/-- The JavaScript regular-expression metacharacters
`\ ^ $ . | ? * + ( ) [ ] { }` (by code point). A pattern free of them is a
literal string. -/
def isRegexMeta (c : Char) : Bool :=
  c.toNat = 92 || c.toNat = 94 || c.toNat = 36 || c.toNat = 46 || c.toNat = 124 ||
  c.toNat = 63 || c.toNat = 42 || c.toNat = 43 || c.toNat = 40 || c.toNat = 41 ||
  c.toNat = 91 || c.toNat = 93 || c.toNat = 123 || c.toNat = 125

/-- A compiled token of the regex fragment the embedding supports: a literal
character or the `.` wildcard. -/
inductive RTok where
  | lit (c : Char)
  | anyChar
deriving DecidableEq, Repr

/-- Compile one pattern character: `.` becomes the wildcard, any other
metacharacter is outside the modelled fragment, the rest are literals. -/
def compileChar (c : Char) : Option RTok :=
  if c.toNat = 46 then some .anyChar
  else if isRegexMeta c then none
  else some (.lit c)

/-- Compile a pattern string; `none` when it uses a metacharacter other than
`.` (outside the modelled fragment of `new RegExp`). -/
def compilePattern : List Char → Option (List RTok)
  | [] => some []
  | c :: cs =>
    match compileChar c, compilePattern cs with
    | some t, some ts => some (t :: ts)
    | _, _ => none

/-- Character match under the `i` flag: a literal compares case-insensitively
and `.` matches every character except the line terminators
(`\n`, `\r`, U+2028, U+2029). -/
def tokMatch : RTok → Char → Bool
  | .lit c, d => c.toLower == d.toLower
  | .anyChar, d =>
    !([10, 13, 8232, 8233].contains d.toNat)

/-- The compiled pattern matches a prefix of the character list. -/
def matchHere : List RTok → List Char → Bool
  | [], _ => true
  | _ :: _, [] => false
  | t :: ts, c :: cs => tokMatch t c && matchHere ts cs

/-- `RegExp.prototype.test`: the pattern matches starting at some position of
the subject (unanchored search). -/
def regexTest (ts : List RTok) : List Char → Bool
  | [] => matchHere ts []
  | c :: cs => matchHere ts (c :: cs) || regexTest ts cs

/-- The Mongo query `{ $or: [{idName: regex}, {email: regex}] }` run per
document: the regex tests `idName`, or `email` when that field is present
(a document without `email` never matches the `email` clause). -/
def profMatches (ts : List RTok) (p : Profile) : Bool :=
  regexTest ts p.idName.toList ||
    (match p.email with
     | some e => regexTest ts e.toList
     | none => false)

/-- Outcome of `GET /userprofile/search`. `unmodelled` marks queries whose
regex uses syntax outside the fragment embedded here (never hit by the
claims below). -/
inductive SearchResp where
  | badRequest
  | ok (results : List Profile)
  | unmodelled
deriving DecidableEq, Repr

/-- `GET /userprofile/search?q=` (userProfile.js lines 32–42, one-file
variant lines 160–167): 400 when `q` is absent or trims to the empty string
(`!q?.trim()`); otherwise the collection is filtered by
`new RegExp(q, 'i')` applied to `idName` or `email`. -/
def searchHandler (store : List Profile) (q : Option String) : SearchResp :=
  match q with
  | none => .badRequest
  | some s =>
    if jsTrim s = "" then .badRequest
    else
      match compilePattern s.toList with
      | none => .unmodelled
      | some ts => .ok (store.filter (profMatches ts))

/-- Spec-side helper: the needle is a prefix of the haystack (character
lists, exact comparison). -/
def startsWithL : List Char → List Char → Bool
  | [], _ => true
  | _ :: _, [] => false
  | a :: as, b :: bs => a == b && startsWithL as bs

/-- Spec-side helper: the needle occurs as a contiguous substring of the
haystack. -/
def containsL (needle : List Char) : List Char → Bool
  | [] => startsWithL needle []
  | b :: bs => startsWithL needle (b :: bs) || containsL needle bs

/-- Spec-side definition, following the specification's words: `hay`
contains `needle` as a case-insensitive substring. -/
def containsSubstrCI (needle hay : String) : Bool :=
  containsL (needle.toList.map Char.toLower) (hay.toList.map Char.toLower)

/-- Spec-side predicate of the search claim: the profile's `idName` or
`email` contains the query as a case-insensitive substring. -/
def profContainsCI (q : String) (p : Profile) : Bool :=
  containsSubstrCI q p.idName ||
    (match p.email with
     | some e => containsSubstrCI q e
     | none => false)

/-! ## Shared lemmas -/

/-- A present non-empty string survives the truthiness check. -/
theorem jsStr_of_ne (s : String) (h : s ≠ "") : jsStr (some s) = some s := by
  simp [jsStr, h]

/-! ## OTP lifecycle -/

/-- C1. OTP single use: with a pending record and the exact stored code
supplied within the expiry window, `verify` answers `verified:true` with a
session token, deletes the record, and any immediate retry with the same
code answers `verified:false`; likewise in the no-expiry variant. -/
theorem otp_single_use (store : OtpStore) (e : String) (r : OtpRec)
    (nowMs now2 : Nat) (secret : String)
    (storeS : OtpStoreS) (e2 c2 : String) (nowS : Nat)
    (he : e ≠ "") (hc : r.otp ≠ "") (hrec : store e = some r)
    (hwin : nowMs ≤ r.expires)
    (he2 : e2 ≠ "") (hc2 : c2 ≠ "") (hrecS : storeS e2 = some c2) :
    (verifyEmailOtp store (some e) (some r.otp) nowMs secret =
      ({ status := 200, verified := true,
         token := some (signToken e secret (nowMs / 1000)) }, eraseKey store e)) ∧
    eraseKey store e e = none ∧
    (verifyEmailOtp (eraseKey store e) (some e) (some r.otp) now2 secret).1 =
      { status := 200, verified := false, token := none } ∧
    (verifyEmailOtpSimple storeS (some e2) (some c2) nowS secret =
      ({ status := 200, verified := true,
         token := some (signToken e2 secret nowS) }, eraseKeyS storeS e2)) ∧
    (verifyEmailOtpSimple (eraseKeyS storeS e2) (some e2) (some c2) nowS secret).1 =
      { status := 200, verified := false, token := none } := by
  have hgone : eraseKey store e e = none := by simp [eraseKey]
  have hgoneS : eraseKeyS storeS e2 e2 = none := by simp [eraseKeyS]
  have hnotexp : ¬ nowMs > r.expires := Nat.not_lt.mpr hwin
  refine ⟨?_, hgone, ?_, ?_, ?_⟩
  · simp [verifyEmailOtp, jsStr_of_ne _ he, jsStr_of_ne _ hc, hrec, hnotexp]
  · simp [verifyEmailOtp, jsStr_of_ne _ he, jsStr_of_ne _ hc, hgone]
  · simp [verifyEmailOtpSimple, jsStr_of_ne _ he2, jsStr_of_ne _ hc2, hrecS]
  · simp [verifyEmailOtpSimple, jsStr_of_ne _ he2, jsStr_of_ne _ hc2, hgoneS]

/-- C1 witness. -/
theorem otp_single_use_witness :
    (verifyEmailOtp (fun e => if e = "a@b.com" then some { otp := "123456", expires := 1000 } else none)
       (some "a@b.com") (some "123456") 500 "sec").1.verified = true ∧
    (verifyEmailOtp ((verifyEmailOtp
        (fun e => if e = "a@b.com" then some { otp := "123456", expires := 1000 } else none)
        (some "a@b.com") (some "123456") 500 "sec").2)
       (some "a@b.com") (some "123456") 600 "sec").1.verified = false := by
  have h := otp_single_use
    (fun e => if e = "a@b.com" then some { otp := "123456", expires := 1000 } else none)
    "a@b.com" { otp := "123456", expires := 1000 } 500 600 "sec"
    (fun e => if e = "x@y.com" then some "654321" else none) "x@y.com" "654321" 42
    (by decide) (by decide) (by simp) (by decide) (by decide) (by decide) (by simp)
  refine ⟨by rw [h.1], ?_⟩
  rw [h.1]
  rw [h.2.2.1]

/-- C2. OTP expiry: once the expiry time has passed, `verify` with the exact
stored code answers `verified:false` with no session token (the record is
purged as a side effect). -/
theorem otp_expiry_rejected (store : OtpStore) (e : String) (r : OtpRec)
    (nowMs : Nat) (secret : String)
    (he : e ≠ "") (hc : r.otp ≠ "") (hrec : store e = some r)
    (hexp : r.expires < nowMs) :
    verifyEmailOtp store (some e) (some r.otp) nowMs secret =
      ({ status := 200, verified := false, token := none }, eraseKey store e) := by
  simp [verifyEmailOtp, jsStr_of_ne _ he, jsStr_of_ne _ hc, hrec, hexp]

/-- C2 witness. -/
theorem otp_expiry_rejected_witness :
    verifyEmailOtp (fun e => if e = "a@b.com" then some { otp := "123456", expires := 1000 } else none)
      (some "a@b.com") (some "123456") 1001 "sec" =
      ({ status := 200, verified := false, token := none },
       eraseKey (fun e => if e = "a@b.com" then some { otp := "123456", expires := 1000 } else none)
         "a@b.com") :=
  otp_expiry_rejected
    (fun e => if e = "a@b.com" then some { otp := "123456", expires := 1000 } else none)
    "a@b.com" { otp := "123456", expires := 1000 } 1001 "sec"
    (by decide) (by decide) (by simp) (by decide)

/-- C9. No rollback on delivery failure: `send-email-otp` stores the fresh
code before attempting the mail, and the catch branch answers 500 without
removing it, so the record is still present afterwards and a later `verify`
with the generated code (within the window, for the with-expiry variant)
answers `verified:true`; likewise in the plain variant. -/
theorem otp_no_rollback (store : OtpStore) (e code secret : String)
    (nowMs now2 : Nat) (storeS : OtpStoreS) (e2 code2 : String) (nowS : Nat)
    (he : e ≠ "") (hcode : code ≠ "") (hwin : now2 ≤ nowMs + 5 * 60 * 1000)
    (he2 : e2 ≠ "") (hcode2 : code2 ≠ "") :
    ((sendEmailOtpExp store (some e) code nowMs false).1 = .deliveryFailed ∧
     (sendEmailOtpExp store (some e) code nowMs false).2 e =
       some { otp := code, expires := nowMs + 5 * 60 * 1000 } ∧
     (∀ x, x ≠ e → (sendEmailOtpExp store (some e) code nowMs false).2 x = store x) ∧
     (verifyEmailOtp (sendEmailOtpExp store (some e) code nowMs false).2
        (some e) (some code) now2 secret).1.verified = true) ∧
    ((sendEmailOtpSimple storeS (some e2) code2 false).1 = .deliveryFailed ∧
     (sendEmailOtpSimple storeS (some e2) code2 false).2 e2 = some code2 ∧
     (verifyEmailOtpSimple (sendEmailOtpSimple storeS (some e2) code2 false).2
        (some e2) (some code2) nowS secret).1.verified = true) := by
  have hsend : sendEmailOtpExp store (some e) code nowMs false =
      (.deliveryFailed,
       fun x => if x = e then some { otp := code, expires := nowMs + 5 * 60 * 1000 } else store x) := by
    simp [sendEmailOtpExp, jsStr_of_ne _ he]
  have hsendS : sendEmailOtpSimple storeS (some e2) code2 false =
      (.deliveryFailed, fun x => if x = e2 then some code2 else storeS x) := by
    simp [sendEmailOtpSimple, jsStr_of_ne _ he2]
  have hnotexp : ¬ now2 > nowMs + 5 * 60 * 1000 := Nat.not_lt.mpr hwin
  refine ⟨⟨?_, ?_, ?_, ?_⟩, ⟨?_, ?_, ?_⟩⟩
  · rw [hsend]
  · rw [hsend]; simp
  · intro x hx; rw [hsend]; simp [hx]
  · rw [hsend]
    simp [verifyEmailOtp, jsStr_of_ne _ he, jsStr_of_ne _ hcode, hnotexp]
  · rw [hsendS]
  · rw [hsendS]; simp
  · rw [hsendS]
    simp [verifyEmailOtpSimple, jsStr_of_ne _ he2, jsStr_of_ne _ hcode2]

/-- C9 witness. -/
theorem otp_no_rollback_witness :
    (sendEmailOtpExp (fun _ => none) (some "a@b.com") "123456" 0 false).1 = .deliveryFailed ∧
    (verifyEmailOtp (sendEmailOtpExp (fun _ => none) (some "a@b.com") "123456" 0 false).2
       (some "a@b.com") (some "123456") 1000 "sec").1.verified = true := by
  have h := otp_no_rollback (fun _ => none) "a@b.com" "123456" "sec" 0 1000
    (fun _ => none) "x@y.com" "654321" 7
    (by decide) (by decide) (by decide) (by decide) (by decide)
  exact ⟨h.1.1, h.1.2.2.2⟩

/-- C10. Failed verification preserves the pending OTP: a mismatching code
answers `verified:false` and leaves the store untouched, so a later attempt
with the stored code within the window still succeeds; the store changes
only on a successful verification or on a matching attempt observed after
expiry; likewise the plain variant keeps the record on a mismatch. -/
theorem failed_verify_preserves_otp (store : OtpStore) (e c secret : String)
    (r : OtpRec) (nowMs now2 : Nat)
    (he : e ≠ "") (hc : c ≠ "") (hrec : store e = some r)
    (hmis : c ≠ r.otp) (hco : r.otp ≠ "") (hwin : now2 ≤ r.expires) :
    (verifyEmailOtp store (some e) (some c) nowMs secret =
       ({ status := 200, verified := false, token := none }, store)) ∧
    ((verifyEmailOtp store (some e) (some r.otp) now2 secret).1.verified = true) ∧
    (∀ c' now', (verifyEmailOtp store (some e) (some c') now' secret).2 ≠ store →
       (verifyEmailOtp store (some e) (some c') now' secret).1.verified = true ∨
       (r.expires < now' ∧ c' = r.otp)) ∧
    (∀ (storeS : OtpStoreS) (e2 c2 v : String) (nowS : Nat),
       e2 ≠ "" → c2 ≠ "" → storeS e2 = some v → c2 ≠ v →
       verifyEmailOtpSimple storeS (some e2) (some c2) nowS secret =
         ({ status := 200, verified := false, token := none }, storeS)) := by
  have hnotexp : ¬ now2 > r.expires := Nat.not_lt.mpr hwin
  refine ⟨?_, ?_, ?_, ?_⟩
  · simp [verifyEmailOtp, jsStr_of_ne _ he, jsStr_of_ne _ hc, hrec,
      (Ne.symm hmis : r.otp ≠ c)]
  · simp [verifyEmailOtp, jsStr_of_ne _ he, jsStr_of_ne _ hco, hrec, hnotexp]
  · intro c' now' hchanged
    by_cases hc' : c' = ""
    · subst hc'
      simp [verifyEmailOtp, jsStr_of_ne _ he, jsStr] at hchanged
    · by_cases hmatch : r.otp = c'
      · by_cases hexp' : now' > r.expires
        · exact Or.inr ⟨hexp', hmatch.symm⟩
        · left
          simp [verifyEmailOtp, jsStr_of_ne _ he, jsStr_of_ne _ hc', hrec, hmatch, hexp']
      · exfalso
        apply hchanged
        simp [verifyEmailOtp, jsStr_of_ne _ he, jsStr_of_ne _ hc', hrec, hmatch]
  · intro storeS e2 c2 v nowS he2 hc2 hrecS hne
    have : storeS e2 ≠ some c2 := by
      rw [hrecS]; intro hcontra
      exact hne (Option.some.inj hcontra).symm
    simp [verifyEmailOtpSimple, jsStr_of_ne _ he2, jsStr_of_ne _ hc2, this]

/-- C10 witness. -/
theorem failed_verify_preserves_otp_witness :
    (verifyEmailOtp (fun e => if e = "a@b.com" then some { otp := "123456", expires := 1000 } else none)
       (some "a@b.com") (some "000000") 500 "sec") =
      ({ status := 200, verified := false, token := none },
       (fun e => if e = "a@b.com" then some { otp := "123456", expires := 1000 } else none)) ∧
    (verifyEmailOtp (fun e => if e = "a@b.com" then some { otp := "123456", expires := 1000 } else none)
       (some "a@b.com") (some "123456") 800 "sec").1.verified = true := by
  have h := failed_verify_preserves_otp
    (fun e => if e = "a@b.com" then some { otp := "123456", expires := 1000 } else none)
    "a@b.com" "000000" "sec" { otp := "123456", expires := 1000 } 500 800
    (by decide) (by decide) (by simp) (by decide) (by decide) (by decide)
  exact ⟨h.1, h.2.1⟩

/-! ## Profile CRUD -/

/-- C3 counterexample: the claim quantifies over every store state, but when
the `idName` is already stored, both creates are rejected — there is no
success at all, refuting "exactly one success and one DuplicateKey". -/
theorem create_duplicate_cex :
    (createProfile [{ idName := "alice" }] { idName := "alice", email := some "x@y" }).1 =
      .duplicateKey ∧
    (createProfile (createProfile [{ idName := "alice" }]
        { idName := "alice", email := some "x@y" }).2
      { idName := "alice", email := some "z@w" }).1 = .duplicateKey ∧
    ¬ (((createProfile [{ idName := "alice" }] { idName := "alice", email := some "x@y" }).1 =
          .created ∧
        (createProfile (createProfile [{ idName := "alice" }]
            { idName := "alice", email := some "x@y" }).2
          { idName := "alice", email := some "z@w" }).1 = .duplicateKey) ∨
       ((createProfile [{ idName := "alice" }] { idName := "alice", email := some "x@y" }).1 =
          .duplicateKey ∧
        (createProfile (createProfile [{ idName := "alice" }]
            { idName := "alice", email := some "x@y" }).2
          { idName := "alice", email := some "z@w" }).1 = .created)) := by
  decide

/-- C3 (amended): starting from a store in which the shared `idName` is not
yet present, two creates with that `idName` yield exactly one 201 and one
409 in either order, and a create of a not-yet-present `idName` succeeds. -/
theorem create_duplicate_amended (store : List Profile) (p1 p2 : Profile)
    (hsame : p1.idName = p2.idName)
    (hfresh : ∀ q ∈ store, q.idName ≠ p1.idName) :
    (createProfile store p1 = (.created, store ++ [p1]) ∧
     (createProfile (store ++ [p1]) p2).1 = .duplicateKey) ∧
    (createProfile store p2 = (.created, store ++ [p2]) ∧
     (createProfile (store ++ [p2]) p1).1 = .duplicateKey) ∧
    createStatus .created = 201 ∧ createStatus .duplicateKey = 409 := by
  have h1 : store.any (fun q => q.idName = p1.idName) = false := by
    simp only [List.any_eq_false, decide_eq_true_eq]
    exact hfresh
  have h2 : store.any (fun q => q.idName = p2.idName) = false := by
    simp only [List.any_eq_false, decide_eq_true_eq]
    intro q hq
    rw [← hsame]
    exact hfresh q hq
  refine ⟨⟨?_, ?_⟩, ⟨?_, ?_⟩, rfl, rfl⟩
  · simp [createProfile, h1]
  · simp [createProfile, List.any_append, h2, hsame]
  · simp [createProfile, h2]
  · simp [createProfile, List.any_append, h1, hsame]

/-- C3 witness (for the amended theorem). -/
theorem create_duplicate_amended_witness :
    createProfile [] ({ idName := "alice" } : Profile) = (.created, [{ idName := "alice" }]) ∧
    (createProfile [{ idName := "alice" }] { idName := "alice", email := some "z@w" }).1 =
      .duplicateKey := by
  have h := create_duplicate_amended [] { idName := "alice" }
    { idName := "alice", email := some "z@w" } (by decide) (by intro q hq; cases hq)
  exact ⟨h.1.1, by simpa using h.1.2⟩

/-- C4. Update error taxonomy: an absent `idName` fails 404 NotFound, a
request providing neither truthy field fails 400 NoChange, a rename to a
truthy `newIdName` held by a different stored profile fails 409
DuplicateKey, and otherwise the first matching profile is updated with the
provided fields and returned. -/
theorem update_error_taxonomy (store : List Profile) (idName : String)
    (newIdName newEmail : Option String) (hid : idName ≠ "") :
    (store.find? (fun p => p.idName = idName) = none →
       updateProfile store idName newIdName newEmail = (.notFound, store)) ∧
    (∀ user, store.find? (fun p => p.idName = idName) = some user →
       jsStr newIdName = none → jsStr newEmail = none →
       updateProfile store idName newIdName newEmail = (.badRequest, store)) ∧
    (∀ user n, store.find? (fun p => p.idName = idName) = some user →
       jsStr newIdName = some n → n ≠ idName →
       store.any (fun p => p.idName = n) = true →
       updateProfile store idName newIdName newEmail = (.duplicateKey, store)) ∧
    (∀ user, store.find? (fun p => p.idName = idName) = some user →
       ¬ (jsStr newIdName = none ∧ jsStr newEmail = none) →
       (∀ n, jsStr newIdName = some n →
          n = idName ∨ store.any (fun p => p.idName = n) = false) →
       updateProfile store idName newIdName newEmail =
         (.updated (applyUpd user (jsStr newIdName) (jsStr newEmail)),
          replaceFirst store idName (applyUpd user (jsStr newIdName) (jsStr newEmail)))) ∧
    updateStatus .notFound = 404 ∧ updateStatus .duplicateKey = 409 ∧
    updateStatus .badRequest = 400 := by
  refine ⟨?_, ?_, ?_, ?_, rfl, rfl, rfl⟩
  · intro hnone
    simp [updateProfile, hid, hnone]
  · intro user hfind hnI hnE
    simp [updateProfile, hid, hfind, hnI, hnE]
  · intro user n hfind hnI hne hany
    simp [updateProfile, hid, hfind, hnI, hne, hany]
  · intro user hfind hsome hsafe
    match hnI : jsStr newIdName with
    | none =>
      match hnE : jsStr newEmail with
      | none => exact absurd ⟨hnI, hnE⟩ hsome
      | some em =>
        simp [updateProfile, hid, hfind, hnI, hnE]
    | some n =>
      rcases hsafe n hnI with hEq | hany
      · subst hEq
        simp [updateProfile, hid, hfind, hnI]
      · simp [updateProfile, hid, hfind, hnI, hany]

/-- C4 witness. -/
theorem update_error_taxonomy_witness :
    updateProfile ([] : List Profile) "ghost" (some "new") none = (.notFound, []) ∧
    updateProfile [{ idName := "ab" }] "ab" none none = (.badRequest, [{ idName := "ab" }]) ∧
    updateProfile [{ idName := "ab" }, { idName := "cd" }] "ab" (some "cd") none =
      (.duplicateKey, [{ idName := "ab" }, { idName := "cd" }]) ∧
    updateProfile [{ idName := "ab" }] "ab" (some "zz") (some "m@n") =
      (.updated { idName := "zz", email := some "m@n" }, [{ idName := "zz", email := some "m@n" }]) := by
  refine ⟨?_, ?_, ?_, ?_⟩
  · exact (update_error_taxonomy [] "ghost" (some "new") none (by decide)).1 (by decide)
  · exact (update_error_taxonomy [{ idName := "ab" }] "ab" none none
      (by decide)).2.1 { idName := "ab" } (by decide) (by decide) (by decide)
  · exact (update_error_taxonomy [{ idName := "ab" }, { idName := "cd" }] "ab"
      (some "cd") none (by decide)).2.2.1 { idName := "ab" } "cd"
      (by decide) (by decide) (by decide) (by decide)
  · have h := (update_error_taxonomy [{ idName := "ab" }] "ab" (some "zz") (some "m@n")
      (by decide)).2.2.2.1 { idName := "ab" } (by decide)
      (by intro hcontra; exact absurd hcontra.1 (by decide))
      (by intro n hn; right; cases hn; decide)
    simpa using h

/-- C6. Exists/count correctness: with a truthy `email`, the bare form
answers 204 iff some stored profile has exactly that `email` (404
otherwise), and the `withCount` form reports that presence flag together
with the exact number of stored profiles carrying that `email` (0 when none
do). -/
theorem exists_count_correct (store : List Profile) (e : String) (he : e ≠ "") :
    (existsHandler store (some e) none =
       if ∃ p ∈ store, p.email = some e then .found else .missing) ∧
    (∀ w, w ≠ "" → existsHandler store (some e) (some w) =
       .withCount (if ∃ p ∈ store, p.email = some e then 200 else 404)
         (decide (∃ p ∈ store, p.email = some e))
         ((store.filter (fun p => p.email = some e)).length)) := by
  by_cases hex : ∃ p ∈ store, p.email = some e
  · have hany : store.any (fun p => p.email = some e) = true := by
      simp only [List.any_eq_true, decide_eq_true_eq]
      exact hex
    refine ⟨?_, ?_⟩
    · simp [existsHandler, jsStr, he, hany, hex]
    · intro w hw
      simp [existsHandler, jsStr_of_ne _ he, jsStr_of_ne _ hw, hany, hex,
        List.countP_eq_length_filter]
  · have hany : store.any (fun p => p.email = some e) = false := by
      simp only [List.any_eq_false, decide_eq_true_eq]
      intro q hq hqe
      exact hex ⟨q, hq, hqe⟩
    have hfil : store.filter (fun p => p.email = some e) = [] := by
      simp only [List.filter_eq_nil_iff, decide_eq_true_eq]
      intro q hq hqe
      exact hex ⟨q, hq, hqe⟩
    refine ⟨?_, ?_⟩
    · simp [existsHandler, jsStr, he, hany, hex]
    · intro w hw
      simp [existsHandler, jsStr_of_ne _ he, jsStr_of_ne _ hw, hany, hex, hfil]

/-- C6 witness. -/
theorem exists_count_correct_witness :
    existsHandler [{ idName := "a", email := some "e@e" }, { idName := "b", email := some "e@e" }]
      (some "e@e") none = .found ∧
    existsHandler [{ idName := "a", email := some "e@e" }, { idName := "b", email := some "e@e" }]
      (some "e@e") (some "true") = .withCount 200 true 2 ∧
    existsHandler [{ idName := "a", email := some "e@e" }] (some "z@z") (some "true") =
      .withCount 404 false 0 := by
  have h1 := exists_count_correct
    [{ idName := "a", email := some "e@e" }, { idName := "b", email := some "e@e" }]
    "e@e" (by decide)
  have h2 := exists_count_correct [{ idName := "a", email := some "e@e" }] "z@z" (by decide)
  refine ⟨?_, ?_, ?_⟩
  · rw [h1.1]; simp
  · rw [h1.2 "true" (by decide)]; simp
  · rw [h2.2 "true" (by decide)]; simp

/-! ## Session tokens -/

/-- C7. Token validation dispatch: with neither Authorization header nor
cookie the middleware answers 401 MissingToken; a truthy bearer component of
the header is the token checked, whatever the cookie holds; a token failing
the signature/expiry check yields 403 InvalidOrExpired; on success the
decoded payload is exposed as `req.user`. -/
theorem token_validation_dispatch (decode : String → Option Jwt) (secret : String)
    (nowSec : Nat) (authHeader cookie : Option String) :
    (authHeader = none → cookie = none →
       authenticateToken decode secret nowSec authHeader cookie = .missingToken) ∧
    (∀ t, jsStr (extractBearer authHeader) = some t →
       pickToken authHeader cookie = some t) ∧
    (∀ t, pickToken authHeader cookie = some t →
       (decode t).bind (fun j => jwtVerify j secret nowSec) = none →
       authenticateToken decode secret nowSec authHeader cookie = .invalidOrExpired) ∧
    (∀ t p, pickToken authHeader cookie = some t →
       (decode t).bind (fun j => jwtVerify j secret nowSec) = some p →
       authenticateToken decode secret nowSec authHeader cookie = .ok p) := by
  refine ⟨?_, ?_, ?_, ?_⟩
  · intro hh hc
    subst hh; subst hc
    simp [authenticateToken, pickToken, extractBearer, jsStr]
  · intro t ht
    simp [pickToken, ht]
  · intro t ht hv
    simp [authenticateToken, ht, hv]
  · intro t p ht hv
    simp [authenticateToken, ht, hv]

/-- C7 witness. -/
theorem token_validation_dispatch_witness :
    authenticateToken (fun _ => none) "sec" 0 none none = .missingToken ∧
    pickToken (some "Bearer good") (some "cookietok") = some "good" ∧
    authenticateToken (fun s => if s = "good" then some (signToken "a@b" "sec" 0) else none)
      "other" 10 (some "Bearer good") (some "cookietok") = .invalidOrExpired ∧
    authenticateToken (fun s => if s = "good" then some (signToken "a@b" "sec" 0) else none)
      "sec" 10 (some "Bearer good") (some "cookietok") =
      .ok { email := "a@b", iat := 0, exp := 604800 } := by
  refine ⟨?_, ?_, ?_, ?_⟩
  · exact (token_validation_dispatch (fun _ => none) "sec" 0 none none).1 rfl rfl
  · exact (token_validation_dispatch (fun _ => none) "sec" 0
      (some "Bearer good") (some "cookietok")).2.1 "good" (by decide)
  · exact (token_validation_dispatch
      (fun s => if s = "good" then some (signToken "a@b" "sec" 0) else none)
      "other" 10 (some "Bearer good") (some "cookietok")).2.2.1 "good"
      (by decide) (by decide)
  · exact (token_validation_dispatch
      (fun s => if s = "good" then some (signToken "a@b" "sec" 0) else none)
      "sec" 10 (some "Bearer good") (some "cookietok")).2.2.2 "good"
      { email := "a@b", iat := 0, exp := 604800 } (by decide) (by decide)

/-- C8. Session token validity window: a token signed at `T` carries
`exp = T + 7 days`; the middleware accepts it (here via the cookie
transport) at every instant of `[T, T + 6 days]`, in particular at
`T + 6 days`, and rejects it as expired at `T + 8 days`. -/
theorem session_token_window (email secret : String) (T : Nat) (s : String)
    (decode : String → Option Jwt) (hs : s ≠ "")
    (hdec : decode s = some (signToken email secret T)) :
    (signToken email secret T).exp = T + 7 * 86400 ∧
    (∀ t, T ≤ t → t ≤ T + 6 * 86400 →
       authenticateToken decode secret t none (some s) =
         .ok { email := email, iat := T, exp := T + 7 * 86400 }) ∧
    authenticateToken decode secret (T + 8 * 86400) none (some s) = .invalidOrExpired := by
  have hpick : pickToken none (some s) = some s := by
    simp [pickToken, extractBearer, jsStr, hs]
  refine ⟨by simp [signToken], ?_, ?_⟩
  · intro t hT ht
    have hlt : t < T + 7 * 24 * 60 * 60 := by omega
    simp [authenticateToken, hpick, hdec, jwtVerify, signToken, hlt]
  · have hge : ¬ T + 8 * 86400 < T + 7 * 24 * 60 * 60 := by omega
    simp [authenticateToken, hpick, hdec, jwtVerify, signToken, hge]

/-- C8 witness. -/
theorem session_token_window_witness :
    (signToken "a@b" "sec" 0).exp = 7 * 86400 ∧
    authenticateToken (fun x => if x = "tok" then some (signToken "a@b" "sec" 0) else none)
      "sec" (6 * 86400) none (some "tok") = .ok { email := "a@b", iat := 0, exp := 7 * 86400 } ∧
    authenticateToken (fun x => if x = "tok" then some (signToken "a@b" "sec" 0) else none)
      "sec" (8 * 86400) none (some "tok") = .invalidOrExpired := by
  have h := session_token_window "a@b" "sec" 0 "tok"
    (fun x => if x = "tok" then some (signToken "a@b" "sec" 0) else none)
    (by decide) (by simp)
  exact ⟨h.1, by simpa using h.2.1 (6 * 86400) (by omega) (by omega), by simpa using h.2.2⟩

/-! ## Search -/

/-- A pattern free of regex metacharacters compiles to its literal tokens. -/
theorem compilePattern_lit (l : List Char) (h : ∀ c ∈ l, isRegexMeta c = false) :
    compilePattern l = some (l.map RTok.lit) := by
  induction l with
  | nil => rfl
  | cons c cs ih =>
    have hc : isRegexMeta c = false := h c (List.mem_cons_self c cs)
    have h46 : ¬ c.toNat = 46 := by
      intro h46
      simp [isRegexMeta, h46] at hc
    have hcc : compileChar c = some (.lit c) := by
      simp [compileChar, h46, hc]
    have ihh := ih (fun d hd => h d (List.mem_cons_of_mem c hd))
    simp [compilePattern, hcc, ihh]

/-- Anchored matching of a literal-token pattern is case-insensitive prefix
comparison of the lowered character lists. -/
theorem matchHere_lit (ps : List Char) : ∀ cs : List Char,
    matchHere (ps.map RTok.lit) cs =
      startsWithL (ps.map Char.toLower) (cs.map Char.toLower) := by
  induction ps with
  | nil => intro cs; rfl
  | cons a as ih =>
    intro cs
    cases cs with
    | nil => rfl
    | cons b bs =>
      simp [matchHere, tokMatch, startsWithL, ih bs]

/-- Unanchored matching of a literal-token pattern is case-insensitive
substring containment of the lowered character lists. -/
theorem regexTest_lit (ps : List Char) : ∀ cs : List Char,
    regexTest (ps.map RTok.lit) cs =
      containsL (ps.map Char.toLower) (cs.map Char.toLower) := by
  intro cs
  induction cs with
  | nil => simp [regexTest, containsL, matchHere_lit ps []]
  | cons b bs ih =>
    simp only [regexTest, containsL, List.map_cons]
    rw [matchHere_lit ps (b :: bs), ih]
    rfl

/-- On a metacharacter-free query the per-document regex test coincides with
the spec's case-insensitive substring predicate. -/
theorem profMatches_lit (s : String) (p : Profile) :
    profMatches (s.toList.map RTok.lit) p = profContainsCI s p := by
  cases hp : p.email with
  | none => simp [profMatches, profContainsCI, containsSubstrCI, hp, regexTest_lit]
  | some e => simp [profMatches, profContainsCI, containsSubstrCI, hp, regexTest_lit]

/-- C5 counterexample: the route feeds `q` to `new RegExp(q, 'i')`, so the
query `"."` matches the stored profile `{idName:"ab"}` although `"ab"` does
not contain `"."` as a substring — search returns a profile the claim says
it must not return. -/
theorem search_substring_cex :
    searchHandler [{ idName := "ab" }] (some ".") =
      .ok [{ idName := "ab" }] ∧
    profContainsCI "." { idName := "ab" } = false := by
  constructor
  · rfl
  · rfl

/-- C5 (amended): search interprets `q` as a case-insensitive regular
expression; for queries free of regex metacharacters this is exactly the
claimed behaviour — the result is precisely the stored profiles whose
`idName` or `email` contains `q` as a case-insensitive substring — and a
missing, empty or whitespace-only `q` is a 400 validation error. -/
theorem search_substring_amended (store : List Profile) (s : String)
    (htrim : jsTrim s ≠ "") (hlit : ∀ c ∈ s.toList, isRegexMeta c = false) :
    searchHandler store (some s) = .ok (store.filter (profContainsCI s)) ∧
    (∀ st : List Profile, searchHandler st none = .badRequest) ∧
    (∀ (st : List Profile) (w : String), jsTrim w = "" →
       searchHandler st (some w) = .badRequest) := by
  refine ⟨?_, fun st => rfl, ?_⟩
  · have hcomp := compilePattern_lit s.toList hlit
    have hfun : profMatches (s.toList.map RTok.lit) = profContainsCI s :=
      funext (profMatches_lit s)
    simp only [String.toList] at hcomp hfun
    simp [searchHandler, htrim, hcomp, hfun]
  · intro st w hw
    simp [searchHandler, hw]

/-- C5 witness (for the amended theorem). -/
theorem search_substring_amended_witness :
    searchHandler [{ idName := "xABCy" }, { idName := "zz" }, { idName := "q", email := some "abc@d" }]
      (some "aBc") =
      .ok [{ idName := "xABCy" }, { idName := "q", email := some "abc@d" }] ∧
    searchHandler [{ idName := "xABCy" }] none = .badRequest ∧
    searchHandler [{ idName := "xABCy" }] (some "  ") = .badRequest := by
  have h := search_substring_amended
    [{ idName := "xABCy" }, { idName := "zz" }, { idName := "q", email := some "abc@d" }]
    "aBc" (by decide) (by decide)
  refine ⟨?_, h.2.1 _, h.2.2 _ "  " (by decide)⟩
  rw [h.1]
  rfl
